import Mathlib

/-!
Verification of the data-access layer of the event-planning application
(`src/src/services/eventService.js`), a client-side CRUD service that
branches between a REST backend, a managed relational store, and a
local-storage mirror.

Shallow-embedding conventions:

* JavaScript event records are embedded as a `Event` structure whose fields
  are the columns the service reads and writes (`id`, `user_id`,
  `event_name`, ..., plus the modification timestamp the offline update
  stamps under the key `updatedAt`).
* Timestamps (ISO-8601 strings in the source) are embedded as naturals
  ordered the way the strings are ordered chronologically.
* The local-storage mirror (`localStorage.getItem(storageKey)`, a
  JSON-serialized array or an absent key) is an `Option (List Event)`;
  `JSON.stringify`/`JSON.parse` round-trip on arrays written by the service,
  so serialization is embedded as the identity.
* Exceptions are embedded with `Except Err`; a JS `try`/`catch` becomes a
  `match` on the `Except` value, and a rethrowing catch is propagation.
* External collaborators (the REST backend, the relational store, the stored
  identity) are not code of this repository; each call's outcome enters the
  embedding as an explicit parameter: `live` for the result of
  `checkBackendConnection` (which never throws: both its branches return),
  `remoteList` / `remoteGet` / `remotePut` / `remoteDel` for the axios
  calls, `store` for the supabase insert, and `userId?` for
  `getCurrentUserId` (which fails soft to `none`). A single `live` value is
  used for the probe at an operation's entry and for the probe re-run by a
  nested `getAllEvents`, i.e. backend availability is stable within one call.
-/

namespace EventService

/-- Errors the service can throw. `userNotAuthenticated` is
`new Error('User not authenticated')`, `eventNotFound` is
`new Error('Event not found')`, `storeFailure` is a supabase error object,
and `transport` is an axios/network failure. -/
inductive Err where
  | userNotAuthenticated : Err
  | eventNotFound : Err
  | storeFailure : String → Err
  | transport : String → Err
deriving Repr, DecidableEq

/-- An event record as the service handles it: the columns of the `events`
table plus the client-side modification timestamp key `updatedAt` stamped by
the offline update path. -/
structure Event where
  id : String
  user_id : String
  event_name : String
  event_type : String
  description : String
  date : Option String
  time : Option String
  location : String
  city : String
  venue_type : String
  audience_size : Nat
  duration : String
  created_at : Nat
  updatedAt : Nat
deriving Repr, DecidableEq

/-- The creation input `eventData` accepted by `createEvent` (camelCase keys
as in the source; every field may be absent). -/
structure EventData where
  eventName : Option String := none
  eventType : Option String := none
  description : Option String := none
  date : Option String := none
  time : Option String := none
  location : Option String := none
  city : Option String := none
  venueType : Option String := none
  audienceSize : Option Nat := none
  duration : Option String := none
deriving Repr, DecidableEq

/-- The row `createEvent` sends to the relational store
(`supabase.from('events').insert({...})`). -/
structure InsertRow where
  user_id : String
  event_name : String
  event_type : String
  description : String
  date : Option String
  time : Option String
  location : String
  city : String
  venue_type : String
  audience_size : Nat
  duration : String
deriving Repr, DecidableEq

/-- JS `x || null` for a nullable string: an absent or empty (falsy) string
becomes null. -/
def orNull (x : Option String) : Option String :=
  match x with
  | some s => if s = "" then none else some s
  | none => none

/-- The insert payload built by `createEvent` from the resolved identity and
the creation input, with the source's `|| ''` / `|| 0` / `|| null`
defaults. (`s || ''` agrees with `getD ""` because the only falsy string is
`''` itself, and `n || 0` agrees with `getD 0` because the only falsy
number is `0`.) -/
def mkInsertRow (userId : String) (d : EventData) : InsertRow :=
  { user_id := userId
    event_name := d.eventName.getD ""
    event_type := d.eventType.getD ""
    description := d.description.getD ""
    date := orNull d.date
    time := orNull d.time
    location := d.location.getD ""
    city := d.city.getD ""
    venue_type := d.venueType.getD ""
    audience_size := d.audienceSize.getD 0
    duration := d.duration.getD "" }

/-- Modelled from the spec: the external relational store (spec §6) assigns a
fresh identifier and creation/modification timestamps to an inserted row and
returns the persisted row with every supplied column value preserved (the
update trigger only forces `updated_at`; no default overrides a supplied
column). Used to instantiate the abstract `store` parameter in witnesses. -/
def storeInsert (freshId : String) (now : Nat) (r : InsertRow) : Event :=
  { id := freshId
    user_id := r.user_id
    event_name := r.event_name
    event_type := r.event_type
    description := r.description
    date := r.date
    time := r.time
    location := r.location
    city := r.city
    venue_type := r.venue_type
    audience_size := r.audience_size
    duration := r.duration
    created_at := now
    updatedAt := now }

/-- Reading the mirror: `eventsJson ? JSON.parse(eventsJson) : []` — an
absent key yields the empty list. -/
def mirrorList (m : Option (List Event)) : List Event :=
  m.getD []

/-- `getAllEvents`: probe the backend; if live, fetch the remote list
(`response.data.data || []`); otherwise read the mirror. The surrounding
`catch` falls back to the mirror, so a failing remote fetch degrades rather
than throwing. -/
def getAllEvents (live : Bool) (remoteList : Except Err (Option (List Event)))
    (m : Option (List Event)) : Except Err (List Event) :=
  if live then
    match remoteList with
    | .ok d => .ok (d.getD [])
    | .error _ => .ok (mirrorList m)
  else
    .ok (mirrorList m)

/-- `getEventById`: probe; if live, fetch the single record
(`response.data.data`, possibly absent); otherwise linear-scan the list
loaded by `getAllEvents`. The surrounding `catch` returns `null`, so every
error becomes an absent value. -/
def getEventById (live : Bool) (remoteGet : Except Err (Option Event))
    (remoteList : Except Err (Option (List Event)))
    (m : Option (List Event)) (id : String) : Except Err (Option Event) :=
  let body : Except Err (Option Event) :=
    if live then
      remoteGet
    else
      match getAllEvents live remoteList m with
      | .error e => .error e
      | .ok events => .ok (events.find? (fun e => e.id == id))
  match body with
  | .ok v => .ok v
  | .error _ => .ok none

instance exceptDecEq {ε α : Type} [DecidableEq ε] [DecidableEq α] :
    DecidableEq (Except ε α) := fun x y =>
  match x, y with
  | .ok a, .ok b =>
      if h : a = b then .isTrue (congrArg Except.ok h)
      else .isFalse (fun hc => h (Except.ok.inj hc))
  | .error a, .error b =>
      if h : a = b then .isTrue (congrArg Except.error h)
      else .isFalse (fun hc => h (Except.error.inj hc))
  | .ok _, .error _ => .isFalse (fun hc => Except.noConfusion hc)
  | .error _, .ok _ => .isFalse (fun hc => Except.noConfusion hc)

/-- Result of `createEvent`: the returned record or thrown error, the mirror
after the call, and the inserts sent to the relational store. -/
structure CreateResult where
  result : Except Err Event
  mirror : Option (List Event)
  storeSends : List InsertRow
deriving Repr, DecidableEq

/-- `createEvent`: resolve the current identity (`if (!userId) throw` — both
an absent and an empty, falsy, identifier throw), insert into the relational
store (a store error is rethrown), then load the current list, `unshift` the
new record and persist the mirror. The outer `catch` logs and rethrows, so
errors propagate. The store is consulted whether or not the backend is live;
`live` only steers the nested `getAllEvents`. -/
def createEvent (data : EventData) (userId? : Option String)
    (store : InsertRow → Except Err Event) (live : Bool)
    (remoteList : Except Err (Option (List Event)))
    (m : Option (List Event)) : CreateResult :=
  match userId? with
  | none => { result := .error .userNotAuthenticated, mirror := m, storeSends := [] }
  | some userId =>
    if userId = "" then
      { result := .error .userNotAuthenticated, mirror := m, storeSends := [] }
    else
      let row := mkInsertRow userId data
      match store row with
      | .error e => { result := .error e, mirror := m, storeSends := [row] }
      | .ok newEvent =>
        match getAllEvents live remoteList m with
        | .error e => { result := .error e, mirror := m, storeSends := [row] }
        | .ok events =>
          { result := .ok newEvent
            mirror := some (newEvent :: events)
            storeSends := [row] }

/-- A partial update object: any field of an event record may be supplied.
The spread `{...events[index], ...updates, updatedAt: ...}` overwrites
exactly the supplied fields, and the last spread element always overrides
any `updatedAt` the patch carries. -/
structure Patch where
  id : Option String := none
  user_id : Option String := none
  event_name : Option String := none
  event_type : Option String := none
  description : Option String := none
  date : Option (Option String) := none
  time : Option (Option String) := none
  location : Option String := none
  city : Option String := none
  venue_type : Option String := none
  audience_size : Option Nat := none
  duration : Option String := none
  created_at : Option Nat := none
  updatedAt : Option Nat := none
deriving Repr, DecidableEq

/-- The object spread `{...e, ...p}`: each field of `p` that is present
overwrites the corresponding field of `e`. -/
def Patch.spread (p : Patch) (e : Event) : Event :=
  { id := p.id.getD e.id
    user_id := p.user_id.getD e.user_id
    event_name := p.event_name.getD e.event_name
    event_type := p.event_type.getD e.event_type
    description := p.description.getD e.description
    date := p.date.getD e.date
    time := p.time.getD e.time
    location := p.location.getD e.location
    city := p.city.getD e.city
    venue_type := p.venue_type.getD e.venue_type
    audience_size := p.audience_size.getD e.audience_size
    duration := p.duration.getD e.duration
    created_at := p.created_at.getD e.created_at
    updatedAt := p.updatedAt.getD e.updatedAt }

/-- `{...events[index], ...updates, updatedAt: new Date().toISOString()}`:
spread the patch over the entry, then stamp the current time. -/
def applyUpdate (e : Event) (p : Patch) (now : Nat) : Event :=
  { p.spread e with updatedAt := now }

/-- Result of `updateEvent`: the returned record or thrown error and the
mirror after the call. -/
structure UpdateResult where
  result : Except Err Event
  mirror : Option (List Event)
deriving Repr, DecidableEq

/-- `updateEvent`: probe; if live, PUT to the backend and find-and-replace
the mirror entry (the mirror is only written when the identifier is found);
if offline, find the entry in the mirror — throwing `Event not found` when
absent (`findIndex === -1`) — overwrite it with the patch plus a fresh
client-side `updatedAt` stamp, and persist. The outer `catch` rethrows.
`List.findIdx` returns the list's length when no element matches, mirroring
`findIndex` returning `-1`. -/
def updateEvent (live : Bool) (remotePut : Except Err Event)
    (remoteList : Except Err (Option (List Event))) (now : Nat)
    (m : Option (List Event)) (id : String) (patch : Patch) : UpdateResult :=
  if live then
    match remotePut with
    | .error e => { result := .error e, mirror := m }
    | .ok updatedEvent =>
      match getAllEvents live remoteList m with
      | .error e => { result := .error e, mirror := m }
      | .ok events =>
        let i := events.findIdx (fun e => e.id == id)
        if i < events.length then
          { result := .ok updatedEvent, mirror := some (events.set i updatedEvent) }
        else
          { result := .ok updatedEvent, mirror := m }
  else
    match getAllEvents live remoteList m with
    | .error e => { result := .error e, mirror := m }
    | .ok events =>
      let i := events.findIdx (fun e => e.id == id)
      if h : i < events.length then
        let updated := applyUpdate (events.get ⟨i, h⟩) patch now
        { result := .ok updated, mirror := some (events.set i updated) }
      else
        { result := .error .eventNotFound, mirror := m }

/-- Result of `deleteEvent`: the returned success flag or thrown error and
the mirror after the call. -/
structure DeleteResult where
  result : Except Err Bool
  mirror : Option (List Event)
deriving Repr, DecidableEq

/-- `deleteEvent`: probe; if live, issue the remote delete first (it is not
separately guarded, so its error propagates through the rethrowing outer
`catch` before the local removal runs); then filter the identifier out of
the current list, persist the mirror, and return `true`. -/
def deleteEvent (live : Bool) (remoteDel : Except Err Unit)
    (remoteList : Except Err (Option (List Event)))
    (m : Option (List Event)) (id : String) : DeleteResult :=
  match (if live then remoteDel else .ok ()) with
  | .error e => { result := .error e, mirror := m }
  | .ok _ =>
    match getAllEvents live remoteList m with
    | .error e => { result := .error e, mirror := m }
    | .ok events =>
      { result := .ok true
        mirror := some (events.filter (fun e => e.id != id)) }

/-! Concrete sample values used by witnesses. -/

/-- A concrete sample event. -/
def evA : Event :=
  { id := "a", user_id := "u1", event_name := "Launch", event_type := "conference"
    description := "", date := none, time := none, location := "", city := ""
    venue_type := "", audience_size := 50, duration := "", created_at := 1
    updatedAt := 1 }

/-- A second concrete sample event with a distinct identifier. -/
def evB : Event :=
  { evA with id := "b", event_name := "Retro", updatedAt := 2 }

/-- A concrete creation input. -/
def dataA : EventData :=
  { eventName := some "Launch", eventType := some "conference", audienceSize := some 50 }

/-- A concrete instance of the abstract relational store: inserts succeed,
the persisted row gets identifier `e1` and timestamp `5`. -/
def cStore : InsertRow → Except Err Event :=
  fun r => Except.ok (storeInsert "e1" 5 r)

/-! Helper lemmas shared by several claims. -/

/-- `getAllEvents` always evaluates to `.ok`. -/
theorem getAllEvents_isOk (live : Bool) (rl : Except Err (Option (List Event)))
    (m : Option (List Event)) : ∃ l, getAllEvents live rl m = Except.ok l := by
  cases live <;> cases rl <;> exact ⟨_, rfl⟩

/-- Unfolding of the offline branch of `updateEvent`. -/
theorem updateEvent_offline_eq (rp : Except Err Event)
    (rl : Except Err (Option (List Event))) (now : Nat)
    (m : Option (List Event)) (id : String) (patch : Patch) :
    updateEvent false rp rl now m id patch =
      if h : (mirrorList m).findIdx (fun e => e.id == id) < (mirrorList m).length then
        { result := .ok (applyUpdate
            ((mirrorList m).get ⟨(mirrorList m).findIdx (fun e => e.id == id), h⟩) patch now)
          mirror := some ((mirrorList m).set ((mirrorList m).findIdx (fun e => e.id == id))
            (applyUpdate
              ((mirrorList m).get ⟨(mirrorList m).findIdx (fun e => e.id == id), h⟩)
              patch now)) }
      else { result := .error .eventNotFound, mirror := m } := rfl

/-- In a list whose identifiers are pairwise distinct, the linear scan finds
exactly the member carrying the sought identifier. -/
theorem find_first_of_pairwise {l : List Event} {e : Event} {id : String}
    (hmem : e ∈ l) (hid : e.id = id)
    (hpw : l.Pairwise (fun a b => a.id ≠ b.id)) :
    l.find? (fun x => x.id == id) = some e := by
  induction l with
  | nil => cases hmem
  | cons a t ih =>
    rw [List.pairwise_cons] at hpw
    rcases List.mem_cons.mp hmem with rfl | hmem'
    · exact List.find?_cons_of_pos _ (by simp [hid])
    · have hb : (a.id == id) = false := by
        simp only [beq_eq_false_iff_ne]
        exact fun hc => hpw.1 e hmem' (hc.trans hid.symm)
      simp only [List.find?_cons, hb]
      exact ih hmem' hpw.2

/-! Claims. -/

/-- Claim C1: when no current identity can be resolved (`getCurrentUserId`
returns the absent value), `createEvent` fails with the
`User not authenticated` error, sends nothing to the relational store, and
leaves the local mirror unchanged. -/
theorem createEvent_no_identity (data : EventData)
    (store : InsertRow → Except Err Event) (live : Bool)
    (rl : Except Err (Option (List Event))) (m : Option (List Event)) :
    createEvent data none store live rl m =
      { result := .error .userNotAuthenticated, mirror := m, storeSends := [] } := rfl

/-- Claim C2: with a resolved identity and a successful store insert, while
the backend is unavailable, `createEvent` returns a record whose `user_id`
equals the resolved identity (given that the store echoes the inserted
owner column), prepends it to the local mirror, and a subsequent offline
`getAllEvents` returns that record first. -/
theorem createEvent_offline_owner_prepend (data : EventData) (uid : String)
    (store : InsertRow → Except Err Event)
    (rl rl2 : Except Err (Option (List Event))) (m : Option (List Event))
    (huid : uid ≠ "")
    (hfaithful : ∀ r e, store r = Except.ok e → e.user_id = r.user_id)
    (hok : ∃ ev, store (mkInsertRow uid data) = Except.ok ev) :
    ∃ ev,
      createEvent data (some uid) store false rl m =
        { result := .ok ev
          mirror := some (ev :: mirrorList m)
          storeSends := [mkInsertRow uid data] } ∧
      ev.user_id = uid ∧
      getAllEvents false rl2 (some (ev :: mirrorList m)) =
        Except.ok (ev :: mirrorList m) := by
  obtain ⟨ev, hev⟩ := hok
  refine ⟨ev, ?_, ?_, rfl⟩
  · simp [createEvent, huid, hev, getAllEvents]
  · exact hfaithful _ _ hev

/-- Witness for claim C2 at a concrete input. -/
theorem createEvent_offline_owner_prepend_witness :
    ∃ ev,
      createEvent dataA (some "u1") cStore false (Except.ok none) none =
        { result := .ok ev
          mirror := some (ev :: mirrorList none)
          storeSends := [mkInsertRow "u1" dataA] } ∧
      ev.user_id = "u1" ∧
      getAllEvents false (Except.ok none) (some (ev :: mirrorList none)) =
        Except.ok (ev :: mirrorList none) :=
  createEvent_offline_owner_prepend dataA "u1" cStore (Except.ok none) (Except.ok none)
    none (by decide) (fun r e h => by injection h with h2; rw [← h2]; exact rfl)
    ⟨storeInsert "e1" 5 (mkInsertRow "u1" dataA), rfl⟩

/-- Claim C3: while the backend is unavailable, `getEventById` returns the
mirror record carrying the sought identifier when one is present (exactly
that record, when identifiers are pairwise distinct), the absent value when
none is, and in no case — offline or live, whatever the remote outcomes —
does it throw. -/
theorem getEventById_offline_spec (rg : Except Err (Option Event))
    (rl : Except Err (Option (List Event))) (m : Option (List Event)) (id : String) :
    (∀ (live : Bool) (rg2 : Except Err (Option Event))
       (rl2 : Except Err (Option (List Event))),
       ∃ v, getEventById live rg2 rl2 m id = Except.ok v) ∧
    (∀ e, e ∈ mirrorList m → e.id = id →
       (mirrorList m).Pairwise (fun a b => a.id ≠ b.id) →
       getEventById false rg rl m id = Except.ok (some e)) ∧
    ((∀ e ∈ mirrorList m, e.id ≠ id) →
       getEventById false rg rl m id = Except.ok none) := by
  refine ⟨?_, ?_, ?_⟩
  · intro live rg2 rl2
    cases live <;> cases rg2 <;> exact ⟨_, rfl⟩
  · intro e hmem hid hpw
    show Except.ok ((mirrorList m).find? (fun x => x.id == id)) = Except.ok (some e)
    rw [find_first_of_pairwise hmem hid hpw]
  · intro habs
    show Except.ok ((mirrorList m).find? (fun x => x.id == id)) = Except.ok none
    rw [List.find?_eq_none.mpr]
    intro x hx
    simp only [beq_iff_eq]
    exact habs x hx

/-- Witness for claim C3 at a concrete input: a two-element mirror, one hit
and one miss. -/
theorem getEventById_offline_spec_witness :
    getEventById false (Except.ok none) (Except.ok none) (some [evA, evB]) "b" =
      Except.ok (some evB) ∧
    getEventById false (Except.ok none) (Except.ok none) (some [evA, evB]) "zzz" =
      Except.ok none :=
  ⟨(getEventById_offline_spec (Except.ok none) (Except.ok none) (some [evA, evB]) "b").2.1
      evB (by decide) rfl (by decide),
   (getEventById_offline_spec (Except.ok none) (Except.ok none) (some [evA, evB]) "zzz").2.2
      (by decide)⟩

/-- Claim C4: offline update of a present identifier: the mirror entry at
the found position becomes the pre-update entry with the patch's fields
overwritten and `updatedAt` stamped with the current time — later than the
entry's previous stamp, given that the clock has advanced past every stored
stamp — and every other mirror position is unchanged. -/
theorem updateEvent_offline_found (rp : Except Err Event)
    (rl : Except Err (Option (List Event))) (now : Nat)
    (m : Option (List Event)) (id : String) (patch : Patch)
    (hmem : ∃ e ∈ mirrorList m, e.id = id)
    (hclock : ∀ e ∈ mirrorList m, e.updatedAt < now) :
    ∃ (i : Nat) (h : i < (mirrorList m).length) (old : Event),
      old = (mirrorList m).get ⟨i, h⟩ ∧
      old.id = id ∧
      updateEvent false rp rl now m id patch =
        { result := .ok (applyUpdate old patch now)
          mirror := some ((mirrorList m).set i (applyUpdate old patch now)) } ∧
      (applyUpdate old patch now).updatedAt = now ∧
      old.updatedAt < (applyUpdate old patch now).updatedAt ∧
      (∀ j, j ≠ i →
        ((mirrorList m).set i (applyUpdate old patch now))[j]? = (mirrorList m)[j]?) := by
  obtain ⟨e, hmem', hid⟩ := hmem
  have hex : ∃ x ∈ mirrorList m, (fun x : Event => x.id == id) x :=
    ⟨e, hmem', by simp [hid]⟩
  have hlt : (mirrorList m).findIdx (fun x => x.id == id) < (mirrorList m).length :=
    List.findIdx_lt_length_of_exists hex
  refine ⟨(mirrorList m).findIdx (fun x => x.id == id), hlt,
    (mirrorList m).get ⟨_, hlt⟩, rfl, ?_, ?_, rfl, ?_, ?_⟩
  · have hp := List.findIdx_getElem (w := hlt)
    simpa [beq_iff_eq, List.get_eq_getElem] using hp
  · rw [updateEvent_offline_eq, dif_pos hlt]
  · exact hclock _ (List.get_mem _ _ _)
  · intro j hj
    exact List.getElem?_set_ne (Ne.symm hj)

/-- Witness for claim C4 at a concrete input. -/
theorem updateEvent_offline_found_witness :
    ∃ (i : Nat) (h : i < (mirrorList (some [evA, evB])).length) (old : Event),
      old = (mirrorList (some [evA, evB])).get ⟨i, h⟩ ∧
      old.id = "b" ∧
      updateEvent false (Except.ok evA) (Except.ok none) 10 (some [evA, evB]) "b"
          { event_name := some "Renamed" } =
        { result := .ok (applyUpdate old { event_name := some "Renamed" } 10)
          mirror := some ((mirrorList (some [evA, evB])).set i
            (applyUpdate old { event_name := some "Renamed" } 10)) } ∧
      (applyUpdate old { event_name := some "Renamed" } 10).updatedAt = 10 ∧
      old.updatedAt < (applyUpdate old { event_name := some "Renamed" } 10).updatedAt ∧
      (∀ j, j ≠ i →
        ((mirrorList (some [evA, evB])).set i
            (applyUpdate old { event_name := some "Renamed" } 10))[j]? =
          (mirrorList (some [evA, evB]))[j]?) :=
  updateEvent_offline_found (Except.ok evA) (Except.ok none) 10 (some [evA, evB]) "b"
    { event_name := some "Renamed" } (by decide) (by decide)

/-- Claim C5: offline update of an identifier absent from the mirror throws
`Event not found` and leaves the mirror unchanged. -/
theorem updateEvent_offline_absent (rp : Except Err Event)
    (rl : Except Err (Option (List Event))) (now : Nat)
    (m : Option (List Event)) (id : String) (patch : Patch)
    (habsent : ∀ e ∈ mirrorList m, e.id ≠ id) :
    updateEvent false rp rl now m id patch =
      { result := .error .eventNotFound, mirror := m } := by
  have hall : ∀ x ∈ mirrorList m, ((fun e : Event => e.id == id) x) = false := by
    intro x hx
    simp only [beq_eq_false_iff_ne]
    exact habsent x hx
  have hlen : (mirrorList m).findIdx (fun e => e.id == id) = (mirrorList m).length :=
    List.findIdx_eq_length.mpr hall
  rw [updateEvent_offline_eq, dif_neg]
  rw [hlen]
  exact Nat.lt_irrefl _

/-- Witness for claim C5 at a concrete input. -/
theorem updateEvent_offline_absent_witness :
    updateEvent false (Except.ok evA) (Except.ok none) 10 (some [evA, evB]) "zzz"
        { event_name := some "Renamed" } =
      { result := .error .eventNotFound, mirror := some [evA, evB] } :=
  updateEvent_offline_absent (Except.ok evA) (Except.ok none) 10 (some [evA, evB]) "zzz"
    { event_name := some "Renamed" } (by decide)

/-- Claim C6: whenever `deleteEvent` completes successfully, the persisted
mirror holds a list with no entry carrying the identifier, and a subsequent
offline `getAllEvents` returns exactly that list — hence no record with the
identifier. -/
theorem deleteEvent_removes (live : Bool) (rd : Except Err Unit)
    (rl rl2 : Except Err (Option (List Event))) (m : Option (List Event)) (id : String)
    (hok : ∃ b, (deleteEvent live rd rl m id).result = Except.ok b) :
    ∃ l, (deleteEvent live rd rl m id).mirror = some l ∧
      (∀ e ∈ l, e.id ≠ id) ∧
      getAllEvents false rl2 (some l) = Except.ok l := by
  obtain ⟨l0, hl0⟩ := getAllEvents_isOk live rl m
  cases hstep : (if live then rd else Except.ok ()) with
  | error e =>
    exfalso
    obtain ⟨b, hb⟩ := hok
    simp [deleteEvent, hstep] at hb
  | ok u =>
    refine ⟨l0.filter (fun e => e.id != id), ?_, ?_, rfl⟩
    · simp [deleteEvent, hstep, hl0]
    · intro e he
      have hmf := (List.mem_filter.mp he).2
      simpa [bne_iff_ne] using hmf

/-- Witness for claim C6 at a concrete input. -/
theorem deleteEvent_removes_witness :
    ∃ l, (deleteEvent false (Except.ok ()) (Except.ok none)
        (some [evA, evB]) "a").mirror = some l ∧
      (∀ e ∈ l, e.id ≠ "a") ∧
      getAllEvents false (Except.ok none) (some l) = Except.ok l :=
  deleteEvent_removes false (Except.ok ()) (Except.ok none) (Except.ok none)
    (some [evA, evB]) "a" ⟨true, rfl⟩

/-- Claim C7 counterexample: on the live path a failing remote delete
propagates through the rethrowing catch — `deleteEvent` does not return the
success indicator and the mirror entry survives — refuting "always succeeds
regardless of ... what the remote delete returned". -/
theorem deleteEvent_remote_failure_cex :
    (deleteEvent true (Except.error (Err.transport "network down")) (Except.ok none)
        (some [evA]) "a").result = Except.error (Err.transport "network down") ∧
    (deleteEvent true (Except.error (Err.transport "network down")) (Except.ok none)
        (some [evA]) "a").mirror = some [evA] :=
  ⟨rfl, rfl⟩

/-- Claim C7 (amended): `deleteEvent` returns the success indicator `true`
whenever the local removal executes — always while the backend is
unavailable, and on the live path whenever the remote delete does not throw;
the removal filters the identifier out of the list the read produced. -/
theorem deleteEvent_success (live : Bool) (rd : Except Err Unit)
    (rl : Except Err (Option (List Event))) (m : Option (List Event)) (id : String)
    (h : live = false ∨ rd = Except.ok ()) :
    ∃ l, getAllEvents live rl m = Except.ok l ∧
      deleteEvent live rd rl m id =
        { result := Except.ok true
          mirror := some (l.filter (fun e => e.id != id)) } := by
  obtain ⟨l0, hl0⟩ := getAllEvents_isOk live rl m
  have hstep : (if live then rd else Except.ok ()) = Except.ok () := by
    rcases h with h | h
    · simp [h]
    · cases live <;> simp [h]
  exact ⟨l0, hl0, by simp [deleteEvent, hstep, hl0]⟩

/-- Witness for the amended claim C7 at a concrete input: offline, the call
succeeds even though the (unconsulted) remote delete would fail. -/
theorem deleteEvent_success_witness :
    ∃ l, getAllEvents false (Except.ok none) (some [evA, evB]) = Except.ok l ∧
      deleteEvent false (Except.error (Err.transport "down")) (Except.ok none)
          (some [evA, evB]) "a" =
        { result := Except.ok true
          mirror := some (l.filter (fun e => e.id != "a")) } :=
  deleteEvent_success false (Except.error (Err.transport "down")) (Except.ok none)
    (some [evA, evB]) "a" (Or.inl rfl)

/-- Claim C8: `getAllEvents` always resolves to a list — never an error —
and when the remote fetch fails the result degrades to the local mirror,
which is the empty list when the mirror is absent. -/
theorem getAllEvents_never_throws (live : Bool)
    (rl : Except Err (Option (List Event))) (m : Option (List Event)) :
    (∃ l, getAllEvents live rl m = Except.ok l) ∧
    (∀ err, rl = Except.error err →
       getAllEvents live rl m = Except.ok (mirrorList m)) ∧
    mirrorList (none : Option (List Event)) = [] := by
  refine ⟨getAllEvents_isOk live rl m, ?_, rfl⟩
  intro err herr
  cases live <;> simp [getAllEvents, herr]

/-- Witness for claim C8 at a concrete input: live path, failing remote
fetch, absent mirror — the call still resolves, to the empty list. -/
theorem getAllEvents_never_throws_witness :
    getAllEvents true (Except.error (Err.transport "down")) none = Except.ok [] :=
  (getAllEvents_never_throws true (Except.error (Err.transport "down")) none).2.1
    (Err.transport "down") rfl

/-- Claim C9: offline round-trip — with a resolved identity and a successful
store insert, `createEvent` followed by `getEventById` on the returned
record's identifier, with no intervening writes, yields a record equal
field-for-field to the created one. -/
theorem create_get_roundtrip (data : EventData) (uid : String)
    (store : InsertRow → Except Err Event)
    (rl rl2 : Except Err (Option (List Event))) (rg : Except Err (Option Event))
    (m : Option (List Event))
    (huid : uid ≠ "") (hok : ∃ ev, store (mkInsertRow uid data) = Except.ok ev) :
    ∃ ev, (createEvent data (some uid) store false rl m).result = Except.ok ev ∧
      getEventById false rg rl2
          (createEvent data (some uid) store false rl m).mirror ev.id =
        Except.ok (some ev) := by
  obtain ⟨ev, hev⟩ := hok
  have hc : createEvent data (some uid) store false rl m =
      { result := .ok ev, mirror := some (ev :: mirrorList m)
        storeSends := [mkInsertRow uid data] } := by
    simp [createEvent, huid, hev, getAllEvents]
  refine ⟨ev, ?_, ?_⟩
  · rw [hc]
  · rw [hc]
    show Except.ok ((ev :: mirrorList m).find? (fun x => x.id == ev.id)) =
      Except.ok (some ev)
    rw [List.find?_cons_of_pos _ (by simp)]

/-- Witness for claim C9 at a concrete input. -/
theorem create_get_roundtrip_witness :
    ∃ ev, (createEvent dataA (some "u1") cStore false (Except.ok none)
        (some [evB])).result = Except.ok ev ∧
      getEventById false (Except.ok none) (Except.ok none)
          (createEvent dataA (some "u1") cStore false (Except.ok none)
            (some [evB])).mirror ev.id =
        Except.ok (some ev) :=
  create_get_roundtrip dataA "u1" cStore (Except.ok none) (Except.ok none)
    (Except.ok none) (some [evB]) (by decide)
    ⟨storeInsert "e1" 5 (mkInsertRow "u1" dataA), rfl⟩

/-- Claim C10: offline delete of an identifier absent from the mirror still
returns `true` and persists the same sequence of records as before. -/
theorem deleteEvent_offline_absent_noop (rd : Except Err Unit)
    (rl : Except Err (Option (List Event))) (m : Option (List Event)) (id : String)
    (habsent : ∀ e ∈ mirrorList m, e.id ≠ id) :
    deleteEvent false rd rl m id =
      { result := Except.ok true, mirror := some (mirrorList m) } ∧
    mirrorList (deleteEvent false rd rl m id).mirror = mirrorList m := by
  have hfilter : (mirrorList m).filter (fun e => e.id != id) = mirrorList m := by
    rw [List.filter_eq_self]
    intro a ha
    simpa [bne_iff_ne] using habsent a ha
  have h1 : deleteEvent false rd rl m id =
      { result := Except.ok true, mirror := some (mirrorList m) } := by
    show ({ result := Except.ok true
            mirror := some ((mirrorList m).filter (fun e => e.id != id)) } : DeleteResult) = _
    rw [hfilter]
  exact ⟨h1, by rw [h1]; rfl⟩

/-- Witness for claim C10 at a concrete input. -/
theorem deleteEvent_offline_absent_noop_witness :
    deleteEvent false (Except.ok ()) (Except.ok none) (some [evA, evB]) "zzz" =
      { result := Except.ok true, mirror := some (mirrorList (some [evA, evB])) } ∧
    mirrorList (deleteEvent false (Except.ok ()) (Except.ok none)
        (some [evA, evB]) "zzz").mirror = mirrorList (some [evA, evB]) :=
  deleteEvent_offline_absent_noop (Except.ok ()) (Except.ok none) (some [evA, evB])
    "zzz" (by decide)

end EventService
